import Mathlib

/-!
Shallow embedding of the chain-monitor core of the itchysats daemon
(`crates/daemon/src/monitor.rs`) and of the ping latency metric
(`xtra-libp2p-ping/src/ping.rs`).

Conventions of the embedding:
* `Txid`, `Script`, `OrderId` are opaque identifiers, modelled as `Nat`.
* Machine integers (`u32` versions) are `Nat` with an explicit `% 2^32`
  where the source can overflow.
* The consensus serialization `serialize_hex(tx)` is modelled as a stored
  field `rawHex` of the transaction value.
* Fallible code returns `Except`; stateful handlers take and return the
  explicit state.
-/

/-- Opaque contract identifier (`model::OrderId`). -/
abbrev OrderId : Type := Nat

/-- Opaque transaction id (`bitcoin::Txid`). -/
abbrev Txid : Type := Nat

/-- Opaque output script (`bitcoin::Script`). -/
abbrev Script : Type := Nat

/-- A transaction output; only its `script_pubkey` is read by the monitor. -/
structure TxOut where
  script_pubkey : Script
deriving DecidableEq, Repr

/-- A bitcoin transaction as seen by the monitor: its id (`tx.txid()`), its
output list, and its consensus serialization (`serialize_hex(tx)`) modelled
as a stored hex string. -/
structure Transaction where
  txid : Txid
  output : List TxOut
  rawHex : String
deriving DecidableEq, Repr

/-- Constant `LOCK_FINALITY_CONFIRMATIONS` in `monitor.rs`. -/
def LOCK_FINALITY_CONFIRMATIONS : Nat := 1

/-- Constant `CLOSE_FINALITY_CONFIRMATIONS` in `monitor.rs`. -/
def CLOSE_FINALITY_CONFIRMATIONS : Nat := 3

/-- Constant `COMMIT_FINALITY_CONFIRMATIONS` in `monitor.rs`. -/
def COMMIT_FINALITY_CONFIRMATIONS : Nat := 1

/-- Constant `CET_FINALITY_CONFIRMATIONS` in `monitor.rs`. -/
def CET_FINALITY_CONFIRMATIONS : Nat := 3

/-- Constant `REFUND_FINALITY_CONFIRMATIONS` in `monitor.rs`. -/
def REFUND_FINALITY_CONFIRMATIONS : Nat := 3

/-- Constant `BATCH_SIZE` in `monitor.rs`. -/
def BATCH_SIZE : Nat := 25

/-- The modulus `2^32` of the `u32` projection version counter. -/
def U32_MOD : Nat := 4294967296

/-- A descriptor, modelled by the output script it computes
(`descriptor.script_pubkey()`). -/
structure Descriptor where
  script_pubkey : Script
deriving DecidableEq, Repr

/-- The `Lock` read-model record of `monitor.rs`. -/
structure Lock where
  txid : Txid
  descriptor : Descriptor
deriving DecidableEq, Repr

/-- The `Commit` read-model record of `monitor.rs`. -/
structure Commit where
  txid : Txid
  descriptor : Descriptor
deriving DecidableEq, Repr

/-- The `Refund` read-model record of `monitor.rs`. -/
structure Refund where
  txid : Txid
  script_pubkey : Script
  timelock : Nat
deriving DecidableEq, Repr

/-- The `RevokedCommit` read-model record of `monitor.rs`. -/
structure RevokedCommit where
  txid : Txid
  script_pubkey : Script
deriving DecidableEq, Repr

/-- The slice of `model::Dlc` read by `monitor.rs`: the lock pair, the commit
descriptor (the middle adaptor-signature component of the source triple is
never read and is omitted), the maker address (by its script), the refund
transaction (`dlc.refund.0`), the refund timelock, and the revoked commits. -/
structure Dlc where
  lock : Transaction × Descriptor
  commit : Transaction × Descriptor
  maker_address_script_pubkey : Script
  refund_tx : Transaction
  refund_timelock : Nat
  revoked_commit : List RevokedCommit
deriving DecidableEq, Repr

/-- Struct `TransactionsAfterContractSetup` in `monitor.rs`. -/
structure TransactionsAfterContractSetup where
  lock : Lock
  commit : Commit
  refund : Refund
deriving DecidableEq, Repr

/-- Constructor `TransactionsAfterContractSetup::new` in `monitor.rs`. -/
def TransactionsAfterContractSetup.new (dlc : Dlc) : TransactionsAfterContractSetup :=
  { lock := { txid := dlc.lock.1.txid, descriptor := dlc.lock.2 }
    commit := { txid := dlc.commit.1.txid, descriptor := dlc.commit.2 }
    refund :=
      { txid := dlc.refund_tx.txid
        script_pubkey := dlc.maker_address_script_pubkey
        timelock := dlc.refund_timelock } }

/-- Struct `TransactionsAfterRollover` in `monitor.rs`. -/
structure TransactionsAfterRollover where
  commit : Commit
  refund : Refund
  revoked_commits : List RevokedCommit
deriving DecidableEq, Repr

/-- Constructor `TransactionsAfterRollover::new` in `monitor.rs`. -/
def TransactionsAfterRollover.new (dlc : Dlc) : TransactionsAfterRollover :=
  { commit := { txid := dlc.commit.1.txid, descriptor := dlc.commit.2 }
    refund :=
      { txid := dlc.refund_tx.txid
        script_pubkey := dlc.maker_address_script_pubkey
        timelock := dlc.refund_timelock }
    revoked_commits :=
      dlc.revoked_commit.map (fun rc => { txid := rc.txid, script_pubkey := rc.script_pubkey }) }

/-- Enum `model::EventKind`, restricted to the payload fields the monitor reads.
Variant names and the payloads used by `Cfd::apply` follow the source match
in `monitor.rs`. -/
inductive EventKind where
  | ContractSetupCompleted (dlc : Option Dlc)
  | RolloverCompleted (dlc : Option Dlc)
  | CollaborativeSettlementCompleted (spend_tx : Transaction) (script : Script)
  | LockConfirmed
  | LockConfirmedAfterFinality
  | ManualCommit (tx : Transaction)
  | CommitConfirmed
  | CetConfirmed
  | RefundConfirmed
  | CollaborativeSettlementConfirmed
  | CetTimelockExpiredPriorOracleAttestation
  | CetTimelockExpiredPostOracleAttestation (cet : Transaction)
  | OracleAttestedPostCetTimelock (cet : Transaction)
  | RefundTimelockExpired
  | RolloverStarted
  | RolloverAccepted
  | RolloverFailed
  | OracleAttestedPriorCetTimelock
  | CollaborativeSettlementStarted
  | CollaborativeSettlementRejected
  | CollaborativeSettlementFailed
  | CollaborativeSettlementProposalAccepted
  | ContractSetupStarted
  | ContractSetupFailed
  | OfferRejected
  | RolloverRejected
  | RevokeConfirmed
deriving DecidableEq, Repr

/-- The `Cfd` read-model (projection record) of the monitoring actor
(`monitor.rs`, struct `Cfd`). -/
structure Cfd where
  id : OrderId
  lock : Option Lock
  monitor_lock_finality : Bool
  collaborative_settlement : Option (Txid × Script)
  monitor_collaborative_settlement_finality : Bool
  commit : Option Commit
  monitor_commit_finality : Bool
  monitor_cet_timelock : Bool
  monitor_refund_timelock : Bool
  cet : Option (Txid × Script)
  monitor_cet_finality : Bool
  refund : Option Refund
  monitor_refund_finality : Bool
  monitor_revoked_commit_transactions : List RevokedCommit
  broadcast_lock : Option Transaction
  broadcast_cet : Option Transaction
  broadcast_commit : Option Transaction
  version : Nat
deriving DecidableEq, Repr

/-- Constructor `<Cfd as sqlite_db::CfdAggregate>::new` in `monitor.rs`: the empty
projection record for a contract. -/
def Cfd.new (id : OrderId) : Cfd :=
  { id := id
    lock := none
    monitor_lock_finality := false
    collaborative_settlement := none
    monitor_collaborative_settlement_finality := false
    commit := none
    monitor_commit_finality := false
    monitor_cet_timelock := false
    monitor_refund_timelock := false
    cet := none
    monitor_cet_finality := false
    refund := none
    monitor_refund_finality := false
    monitor_revoked_commit_transactions := []
    broadcast_lock := none
    broadcast_cet := none
    broadcast_commit := none
    version := 0 }

/-- Function `cet_txid_and_script` in `monitor.rs`: locator of a CET from its first
output; `none` (with an error log in the source) when the CET has no
outputs. -/
def cet_txid_and_script (cet : Transaction) : Option (Txid × Script) :=
  match cet.output.head? with
  | some out => some (cet.txid, out.script_pubkey)
  | none => none

/-- Function `Cfd::apply` in `monitor.rs`: one fold step of the projection. The
version is a `u32` incremented before the match (wrap-around modelled with
`% 2^32`). -/
def Cfd.apply (c : Cfd) (event : EventKind) : Cfd :=
  let c := { c with version := (c.version + 1) % U32_MOD }
  match event with
  | .ContractSetupCompleted (some dlc) =>
      let t := TransactionsAfterContractSetup.new dlc
      { c with
          lock := some t.lock
          monitor_lock_finality := true
          commit := some t.commit
          monitor_commit_finality := true
          monitor_cet_timelock := true
          monitor_refund_timelock := true
          refund := some t.refund
          monitor_refund_finality := true
          monitor_revoked_commit_transactions := []
          broadcast_lock := some dlc.lock.1 }
  | .RolloverCompleted (some dlc) =>
      let t := TransactionsAfterRollover.new dlc
      { c with
          monitor_lock_finality := false
          commit := some t.commit
          monitor_commit_finality := true
          monitor_cet_timelock := true
          monitor_refund_timelock := true
          refund := some t.refund
          monitor_refund_finality := true
          monitor_revoked_commit_transactions := t.revoked_commits
          broadcast_lock := none }
  | .CollaborativeSettlementCompleted spend_tx script =>
      { c with
          collaborative_settlement := some (spend_tx.txid, script)
          monitor_collaborative_settlement_finality := true
          monitor_lock_finality := false
          broadcast_lock := none }
  | .LockConfirmed | .LockConfirmedAfterFinality =>
      { c with monitor_lock_finality := false, broadcast_lock := none }
  | .ManualCommit tx =>
      { c with broadcast_commit := some tx }
  | .CommitConfirmed =>
      { c with monitor_commit_finality := false, broadcast_commit := none }
  | .CetConfirmed | .RefundConfirmed | .CollaborativeSettlementConfirmed =>
      { c with
          monitor_lock_finality := false
          monitor_commit_finality := false
          monitor_cet_timelock := false
          monitor_refund_timelock := false
          monitor_refund_finality := false
          monitor_revoked_commit_transactions := []
          monitor_collaborative_settlement_finality := false
          monitor_cet_finality := false
          broadcast_lock := none
          broadcast_cet := none
          broadcast_commit := none }
  | .CetTimelockExpiredPriorOracleAttestation =>
      { c with monitor_cet_timelock := false }
  | .CetTimelockExpiredPostOracleAttestation cet | .OracleAttestedPostCetTimelock cet =>
      { c with
          broadcast_cet := some cet
          cet := cet_txid_and_script cet
          monitor_cet_finality := true
          monitor_cet_timelock := false }
  | .RefundTimelockExpired =>
      { c with monitor_refund_timelock := false }
  | .ContractSetupCompleted none | .RolloverCompleted none
  | .RolloverStarted | .RolloverAccepted | .RolloverFailed
  | .OracleAttestedPriorCetTimelock
  | .CollaborativeSettlementStarted | .CollaborativeSettlementRejected
  | .CollaborativeSettlementFailed | .CollaborativeSettlementProposalAccepted
  | .ContractSetupStarted | .ContractSetupFailed
  | .OfferRejected | .RolloverRejected => c
  | .RevokeConfirmed => c

/-- Type `ScriptStatus` (from the btsieve engine, per the spec): what a watch is
waiting for / what has been observed. `confirmed n` is "n-deep"; the
`ConfirmedAtLeast(k)` target of the spec is represented by `confirmed k`
compared with `≤` on ranks. -/
inductive ScriptStatus where
  | unknown
  | inMempool
  | confirmed (n : Nat)
deriving DecidableEq, Repr

/-- Rank realising the total order `Unknown < InMempool < Confirmed 1 < …`
of the spec. -/
def ScriptStatus.rank : ScriptStatus → Nat
  | .unknown => 0
  | .inMempool => 1
  | .confirmed n => n + 1

/-- Constructor `ScriptStatus::with_confirmations(k)` per the spec. -/
def ScriptStatus.with_confirmations (k : Nat) : ScriptStatus := .confirmed k

/-- Struct `btsieve::TxStatus`: one entry of a script history. The height is the
electrum `i32` (`height ≤ 0` means unconfirmed). -/
structure TxStatus where
  height : Int
  tx_hash : Txid
deriving DecidableEq, Repr

/-- Status derived from a history entry and the tip height `h` per the spec:
`height ≤ 0` or `height > h` gives `inMempool`, else depth `h − height + 1`. -/
def deriveStatus (tip : Nat) (ts : TxStatus) : ScriptStatus :=
  if ts.height ≤ 0 ∨ (tip : Int) < ts.height then .inMempool
  else .confirmed ((tip : Int) - ts.height + 1).toNat

/-- The monitor's `Event` enum (`monitor.rs`): lifecycle events fired by the
engine and dispatched to the command executor. -/
inductive MEvent where
  | LockFinality (id : OrderId)
  | CommitFinality (id : OrderId)
  | CloseFinality (id : OrderId)
  | CetTimelockExpired (id : OrderId)
  | CetFinality (id : OrderId)
  | RefundTimelockExpired (id : OrderId)
  | RefundFinality (id : OrderId)
  | RevokedTransactionFound (id : OrderId)
deriving DecidableEq, Repr

/-- A registered watch: locator `{txid, script}`, target status and the
event it fires (spec section 3). -/
structure Watch where
  txid : Txid
  script : Script
  target : ScriptStatus
  fires : MEvent
deriving DecidableEq, Repr

/-- Modelled from the spec: the `btsieve::State` confirmation engine, whose
source is not part of this repository slice. State per spec section 3:
latest tip height, the watches in registration order (paired with their
at-most-once emission flag), and the last observed status per locator. -/
structure EngineState where
  latestTip : Nat
  watches : List (Watch × Bool)
  lastObserved : List ((Txid × Script) × ScriptStatus)
deriving DecidableEq, Repr

/-- Modelled from the spec: `State::new(initial_tip)`. -/
def EngineState.new (tip : Nat) : EngineState :=
  { latestTip := tip, watches := [], lastObserved := [] }

/-- Modelled from the spec: `State::monitor` — idempotent registration; a
new watch is appended (registration order), an already-registered
`(locator, target, event)` is a no-op. -/
def EngineState.monitor (s : EngineState) (txid : Txid) (script : Script)
    (target : ScriptStatus) (fires : MEvent) : EngineState :=
  let w : Watch := { txid := txid, script := script, target := target, fires := fires }
  if (s.watches.map Prod.fst).contains w then s
  else { s with watches := s.watches ++ [(w, false)] }

/-- Update an association list entry (insert if absent). -/
def setObserved (m : List ((Txid × Script) × ScriptStatus)) (k : Txid × Script)
    (v : ScriptStatus) : List ((Txid × Script) × ScriptStatus) :=
  match m with
  | [] => [(k, v)]
  | (k', v') :: rest => if k' = k then (k, v) :: rest else (k', v') :: setObserved rest k v

/-- Spec section 4.2 step 3: scan a history for the watched txid; derive the
status from its height and the tip, `unknown` when absent. -/
def observedStatus (tip : Nat) (txid : Txid) (history : List TxStatus) : ScriptStatus :=
  match history.find? (fun ts => ts.tx_hash == txid) with
  | some ts => deriveStatus tip ts
  | none => .unknown

/-- Modelled from the spec: the per-watch loop of `State::update`. Histories
are one per watch in registration order; a watch past the end of the
(possibly truncated) history list gets no information and cannot fire. A
watch fires when observed ≥ target and its emission flag is clear; fired
events are appended in registration order (spec section 4.2 step 6). -/
def updateGo (tip : Nat) : List (Watch × Bool) → List (List TxStatus) →
    List (Watch × Bool) × List MEvent
  | [], _ => ([], [])
  | ws, [] => (ws, [])
  | (w, emitted) :: ws, h :: hs =>
      let rest := updateGo tip ws hs
      let obs := observedStatus tip w.txid h
      if w.target.rank ≤ obs.rank ∧ emitted = false then
        ((w, true) :: rest.1, w.fires :: rest.2)
      else
        ((w, emitted) :: rest.1, rest.2)

/-- Modelled from the spec: `State::update(new_tip, histories)` — store the
new tip, record the observed statuses of the watches whose histories
arrived, and return the fired events in registration order. -/
def EngineState.update (s : EngineState) (newTip : Nat)
    (histories : List (List TxStatus)) : EngineState × List MEvent :=
  let r := updateGo newTip s.watches histories
  let observed := (s.watches.zip histories).foldl
    (fun m p => setObserved m (p.1.1.txid, p.1.1.script) (observedStatus newTip p.1.1.txid p.2))
    s.lastObserved
  ({ latestTip := newTip, watches := r.1, lastObserved := observed }, r.2)

/-- The `while let Some(event) = ready_events.pop()` loop of `Actor::sync`
(`monitor.rs`): `Vec::pop` removes the **last** element, so the events are
processed back-to-front. `drainPop l` is the processing order of the loop
run on the vector `l`. -/
def drainPop {α : Type} : List α → List α
  | [] => []
  | x :: xs => drainPop xs ++ [x]

/-- The sync tick of `Actor::sync` (`monitor.rs`), restricted to the engine
update and the dispatch loop: the second component is the order in which the
fired events are dispatched to the command executor. -/
def syncDispatch (s : EngineState) (latestBlockHeight : Nat)
    (histories : List (List TxStatus)) : EngineState × List MEvent :=
  let r := s.update latestBlockHeight histories
  (r.1, drainPop r.2)

/-- Method `Actor::monitor_cet_finality` (`monitor.rs`): register a cet-finality
watch at `CET_FINALITY_CONFIRMATIONS`. -/
def Actor.monitor_cet_finality (s : EngineState) (order_id : OrderId)
    (close_params : Txid × Script) : EngineState :=
  s.monitor close_params.1 close_params.2
    (ScriptStatus.with_confirmations CET_FINALITY_CONFIRMATIONS)
    (.CetFinality order_id)

/-- The `MonitorCetFinality` message (`monitor.rs`). -/
structure MonitorCetFinality where
  order_id : OrderId
  cet : Transaction

/-- Handler `Actor::handle_monitor_cet_finality` (`monitor.rs`): takes the first
output's script of the CET (failing when there is none, before any state
mutation) and registers the cet-finality watch. Returns the handler result
together with the actor's engine state after the call. -/
def handle_monitor_cet_finality (s : EngineState) (msg : MonitorCetFinality) :
    Except String Unit × EngineState :=
  let txid := msg.cet.txid
  match msg.cet.output.head? with
  | none =>
      (.error ("Failed to monitor cet using script pubkey because no TxOut in CET"), s)
  | some out =>
      (.ok (), Actor.monitor_cet_finality s msg.order_id (txid, out.script_pubkey))

/-- Enum `TransactionKind` in `monitor.rs`. -/
inductive TransactionKind where
  | Lock
  | Commit
  | Refund
  | CollaborativeClose
  | Cet
deriving DecidableEq, Repr

/-- Method `TransactionKind::name` in `monitor.rs`: the metrics label of the kind. -/
def TransactionKind.name : TransactionKind → String
  | .Lock => "lock"
  | .Commit => "commit"
  | .Refund => "refund"
  | .CollaborativeClose => "collaborative-close"
  | .Cet => "contract-execution"

/-- Modelled from the spec: `crate::wallet::RpcErrorCode` is not part of
this repository slice. Scenario S4 of the spec fixes
`RpcVerifyAlreadyInChain = -27`; `RpcVerifyError` carries bitcoind's
`RPC_VERIFY_ERROR = -25`. Only the two variants read by the monitor are
modelled. -/
inductive RpcErrorCode where
  | RpcVerifyError
  | RpcVerifyAlreadyInChain
deriving DecidableEq, Repr

/-- The `i64::from` conversion of the RPC error codes (bitcoind values). -/
def RpcErrorCode.toInt : RpcErrorCode → Int
  | .RpcVerifyError => -25
  | .RpcVerifyAlreadyInChain => -27

/-- The `RpcError {code, message}` struct of `monitor.rs`. -/
structure RpcError where
  code : Int
  message : String
deriving DecidableEq, Repr

/-- The JSON payload carried by an electrum protocol error, modelled at the
level of its parse result: `parsed e` stands for a string of the form
`… RPC error: {json}` whose JSON decodes to `e`; `unparseable` stands for
any string the source's `parse_rpc_protocol_error` rejects (wrong format or
undecodable JSON). -/
inductive RpcValue where
  | parsed (e : RpcError)
  | unparseable
deriving DecidableEq, Repr

/-- Function `parse_rpc_protocol_error` in `monitor.rs`, over the payload model
above: the prefix split and serde decode succeed exactly on `parsed e`. -/
def parse_rpc_protocol_error (v : RpcValue) : Except String RpcError :=
  match v with
  | .parsed e => .ok e
  | .unparseable => .error ("Unknown error code format")

/-- Type `electrum_client::Error`, restricted to what the broadcaster inspects:
a protocol error with its payload, or any other error. -/
inductive ElectrumError where
  | Protocol (v : RpcValue)
  | Other (msg : String)
deriving DecidableEq, Repr

/-- The diagnostic context attached by `handle_try_broadcast_transaction`
to a failed broadcast: txid, kind label, and the hex-encoded raw
transaction (`serialize_hex(&tx)`). -/
structure BroadcastCtx where
  txid : Txid
  kind_name : String
  tx_hex : String
deriving DecidableEq, Repr

/-- The error returned by the broadcaster: either the electrum error value
could not be parsed, or the broadcast failed and the original error is
propagated wrapped in the diagnostic context. -/
inductive BroadcastError where
  | ParseFailed (v : RpcValue)
  | Failed (original : ElectrumError) (ctx : BroadcastCtx)
deriving DecidableEq, Repr

/-- The indexer operations used by the broadcaster, as a response oracle:
the (deterministic within one call) outcomes of `transaction_broadcast` and
`transaction_get`. -/
structure BroadcastEnv where
  transaction_broadcast : Transaction → Except ElectrumError Unit
  transaction_get : Txid → Except Unit Transaction

/-- Handler `Actor::handle_try_broadcast_transaction` in `monitor.rs`. Returns the
handler result paired with the number of times the
`blockchain_transactions_broadcast_total{kind}` counter is incremented
during the call (the source increments it once, only after a broadcast that
actually succeeded). -/
def handle_try_broadcast_transaction (env : BroadcastEnv) (tx : Transaction)
    (kind : TransactionKind) : Except BroadcastError Unit × Nat :=
  let result := env.transaction_broadcast tx
  let fallthrough : Except BroadcastError Unit × Nat :=
    match result with
    | .error e => (.error (.Failed e { txid := tx.txid, kind_name := kind.name, tx_hex := tx.rawHex }), 0)
    | .ok _ => (.ok (), 1)
  match result with
  | .error (.Protocol v) =>
      match parse_rpc_protocol_error v with
      | .error _ => (.error (.ParseFailed v), 0)
      | .ok rpc_error =>
          if rpc_error.code = RpcErrorCode.toInt .RpcVerifyAlreadyInChain then
            (.ok (), 0)
          else if rpc_error.code = RpcErrorCode.toInt .RpcVerifyError ∧
              rpc_error.message = "bad-txns-inputs-missingorspent" then
            match env.transaction_get tx.txid with
            | .ok _ => (.ok (), 0)
            | .error _ => fallthrough
          else fallthrough
  | _ => fallthrough

/-- The rebroadcast submissions of `<Actor as xtra::Actor>::started`
(`monitor.rs`) for one loaded contract, in source order: commit, then cet,
then lock — one submission per present rebroadcast field. -/
def startup_broadcasts (c : Cfd) : List (TransactionKind × Transaction) :=
  (match c.broadcast_commit with
   | some tx => [(TransactionKind.Commit, tx)]
   | none => [])
  ++ (match c.broadcast_cet with
      | some tx => [(TransactionKind.Cet, tx)]
      | none => [])
  ++ (match c.broadcast_lock with
      | some tx => [(TransactionKind.Lock, tx)]
      | none => [])

/-- One rebroadcast step of the startup loop: if the field is present the
transaction is submitted; a broadcast error is logged (a warning is
appended) and the loop continues either way. -/
def replayStep (oracle : TransactionKind → Transaction → Except BroadcastError Unit)
    (k : TransactionKind) (otx : Option Transaction)
    (acc : List (TransactionKind × Transaction) × List String) :
    List (TransactionKind × Transaction) × List String :=
  match otx with
  | none => acc
  | some tx =>
      match oracle k tx with
      | .ok _ => (acc.1 ++ [(k, tx)], acc.2)
      | .error _ => (acc.1 ++ [(k, tx)], acc.2 ++ ["Broadcast failed"])

/-- The startup rebroadcast sequence of `<Actor as xtra::Actor>::started`
for one loaded contract: commit, then cet, then lock; `oracle` gives each
submission's outcome. Returns the submissions made and the warnings
logged. -/
def replay_one (oracle : TransactionKind → Transaction → Except BroadcastError Unit)
    (c : Cfd) : List (TransactionKind × Transaction) × List String :=
  replayStep oracle .Lock c.broadcast_lock
    (replayStep oracle .Cet c.broadcast_cet
      (replayStep oracle .Commit c.broadcast_commit ([], [])))

/-- The startup replay loop of `<Actor as xtra::Actor>::started` over the
streamed contracts: a contract that fails to load is logged and skipped;
for a loaded contract the rebroadcast sequence runs. Returns all
submissions in order and the warnings logged. -/
def startup_replay (oracle : TransactionKind → Transaction → Except BroadcastError Unit) :
    List (Except String Cfd) → List (TransactionKind × Transaction) × List String
  | [] => ([], [])
  | .error _ :: rest =>
      let r := startup_replay oracle rest
      (r.1, ("Failed to load CFD from database") :: r.2)
  | .ok c :: rest =>
      let one := replay_one oracle c
      let r := startup_replay oracle rest
      (one.1 ++ r.1, one.2 ++ r.2)

/-- Structural helper for `chunksOf`: the fuel bounds the number of chunks
produced (the input length always suffices, as each chunk consumes at least
one element). -/
def chunksOfAux {α : Type} (n : Nat) : Nat → List α → List (List α)
  | _, [] => []
  | 0, _ :: _ => []
  | fuel + 1, x :: xs => (x :: xs.take (n - 1)) :: chunksOfAux n fuel (xs.drop (n - 1))

/-- The call `scripts.chunks(BATCH_SIZE)` of `batch_script_get_history`: split a list
into consecutive chunks of at most `n` elements (`n > 0`; the source calls
it with 25). Defined with a fuel of `l.length` to keep the recursion
structural. -/
def chunksOf {α : Type} (n : Nat) (l : List α) : List (List α) :=
  chunksOfAux n l.length l

/-- The shared-channel interleaving of the parallel chunk workers of
`batch_script_get_history`: each worker sends its responses in chunk order;
`sched` picks which worker's next pending response the collector receives
first (an index with no pending response is skipped); once the schedule is
exhausted the remaining responses drain in worker order. Every response is
received because in the modelled executions every send succeeds and the
collector never times out. -/
def mergeStreams {α : Type} : List (List α) → List Nat → List α
  | streams, [] => streams.flatten
  | streams, i :: rest =>
      match streams[i]? with
      | some (x :: s) => x :: mergeStreams (streams.set i s) rest
      | _ => mergeStreams streams rest

/-- Function `batch_script_get_history` in `monitor.rs`, modelled for the executions
in which every `script_get_history` call succeeds (response
`hist script`) within the per-item timeout: the scripts are split into
chunks of `BATCH_SIZE`, each chunk runs on its own blocking worker sending
its responses in order into one shared channel, and the collector receives
them in the interleaving `sched`. -/
def batch_script_get_history (hist : Script → List TxStatus) (scripts : List Script)
    (sched : List Nat) : List (List TxStatus) :=
  mergeStreams ((chunksOf BATCH_SIZE scripts).map (fun chunk => chunk.map hist)) sched

/-- Method `Duration::as_millis` for a duration given in nanoseconds: whole
milliseconds, truncating. -/
def durationAsMillis (latency_ns : Nat) : Nat := latency_ns / 1000000

/-- Method `u128::checked_div`: `none` exactly when the divisor is zero. -/
def checkedDiv (a b : Nat) : Option Nat := if b = 0 then none else some (a / b)

/-- The value passed to `PEER_LATENCY_HISTOGRAM.observe` by the
`RecordLatency` handler (`ping.rs`): the latency in whole milliseconds,
`checked_div(1000).unwrap_or_default()`. The source casts this integer to
`f64`; the cast is exact for every reachable value, so the observation is
modelled by the integer itself. -/
def record_latency_observed (latency_ns : Nat) : Nat :=
  (checkedDiv (durationAsMillis latency_ns) 1000).getD 0

theorem Cfd.version_apply (c : Cfd) (e : EventKind) :
    (c.apply e).version = (c.version + 1) % U32_MOD := by
  cases e <;> try rfl
  all_goals (rename_i dlc; cases dlc <;> rfl)

theorem Cfd.version_foldl (log : List EventKind) :
    ∀ c : Cfd, c.version < U32_MOD →
      (log.foldl Cfd.apply c).version = (c.version + log.length) % U32_MOD := by
  induction log with
  | nil =>
      intro c hc
      simp [Nat.mod_eq_of_lt hc]
  | cons e rest ih =>
      intro c hc
      have h1 : (c.apply e).version = (c.version + 1) % U32_MOD := Cfd.version_apply c e
      have hpos : 0 < U32_MOD := by norm_num [U32_MOD]
      have h2 : (c.apply e).version < U32_MOD := by
        rw [h1]; exact Nat.mod_lt _ hpos
      rw [List.foldl_cons, ih _ h2, h1, Nat.mod_add_mod]
      simp only [List.length_cons, U32_MOD]
      omega

/-- C6: folding any event log into the projection record from the empty
record increments the version once per event, so the final version is the
length of the log (as long as the `u32` counter does not wrap). -/
theorem fold_version_eq_log_length (log : List EventKind) (id : OrderId)
    (h : log.length < U32_MOD) :
    (log.foldl Cfd.apply (Cfd.new id)).version = log.length := by
  have h0 : (Cfd.new id).version < U32_MOD := by norm_num [Cfd.new, U32_MOD]
  have := Cfd.version_foldl log (Cfd.new id) h0
  simpa [Cfd.new, Nat.mod_eq_of_lt h] using this

theorem fold_version_eq_log_length_witness :
    ([EventKind.LockConfirmed, EventKind.CommitConfirmed].length < U32_MOD) ∧
    (([EventKind.LockConfirmed, EventKind.CommitConfirmed].foldl Cfd.apply
        (Cfd.new 0)).version = 2) :=
  ⟨by norm_num [U32_MOD], fold_version_eq_log_length _ 0 (by norm_num [U32_MOD])⟩

/-- C7: applying a `CetConfirmed`, `RefundConfirmed` or
`CollaborativeSettlementConfirmed` event turns off every monitoring guard,
empties the revoked-commit watch list and clears all three rebroadcast
transactions, while the contract id and all stored locators are unchanged
and only the version is bumped. -/
theorem terminal_event_clears_monitoring (c : Cfd) (e : EventKind)
    (h : e = EventKind.CetConfirmed ∨ e = EventKind.RefundConfirmed ∨
         e = EventKind.CollaborativeSettlementConfirmed) :
    (c.apply e).monitor_lock_finality = false ∧
    (c.apply e).monitor_commit_finality = false ∧
    (c.apply e).monitor_cet_timelock = false ∧
    (c.apply e).monitor_refund_timelock = false ∧
    (c.apply e).monitor_refund_finality = false ∧
    (c.apply e).monitor_collaborative_settlement_finality = false ∧
    (c.apply e).monitor_cet_finality = false ∧
    (c.apply e).monitor_revoked_commit_transactions = [] ∧
    (c.apply e).broadcast_lock = none ∧
    (c.apply e).broadcast_cet = none ∧
    (c.apply e).broadcast_commit = none ∧
    (c.apply e).id = c.id ∧
    (c.apply e).lock = c.lock ∧
    (c.apply e).commit = c.commit ∧
    (c.apply e).refund = c.refund ∧
    (c.apply e).cet = c.cet ∧
    (c.apply e).collaborative_settlement = c.collaborative_settlement ∧
    (c.apply e).version = (c.version + 1) % U32_MOD := by
  rcases h with h | h | h <;> subst h <;> simp [Cfd.apply]

theorem terminal_event_clears_monitoring_witness :
    ((Cfd.new 5).apply EventKind.CetConfirmed).monitor_cet_finality = false ∧
    ((Cfd.new 5).apply EventKind.CetConfirmed).id = (Cfd.new 5).id :=
  ⟨(terminal_event_clears_monitoring (Cfd.new 5) _ (Or.inl rfl)).2.2.2.2.2.2.1,
   (terminal_event_clears_monitoring (Cfd.new 5) _ (Or.inl rfl)).2.2.2.2.2.2.2.2.2.2.2.1⟩

/-- C3 counterexample: folding a post-oracle-attestation event whose CET has
no outputs leaves the cet locator unset, but the `monitor_cet_finality`
guard IS set to `true` by `Cfd::apply` (the source enables it
unconditionally), contradicting the claim that the guard is not enabled. -/
theorem cet_without_outputs_counterexample :
    (((Cfd.new 0).apply (EventKind.CetTimelockExpiredPostOracleAttestation
        { txid := 9, output := [], rawHex := "" })).cet = none) ∧
    (((Cfd.new 0).apply (EventKind.CetTimelockExpiredPostOracleAttestation
        { txid := 9, output := [], rawHex := "" })).monitor_cet_finality = true) := by
  exact ⟨rfl, rfl⟩

/-- C3 amended: for both post-oracle-attestation event kinds, a CET with no
outputs leaves the cet locator unset (`none`), while `monitor_cet_finality`
is set to `true` (it is enabled unconditionally by the fold; no cet watch
can later be registered because the locator is unset). -/
theorem cet_without_outputs_amended (c : Cfd) (cet : Transaction)
    (h : cet.output = []) :
    ((c.apply (EventKind.CetTimelockExpiredPostOracleAttestation cet)).cet = none ∧
     (c.apply (EventKind.CetTimelockExpiredPostOracleAttestation cet)).monitor_cet_finality = true) ∧
    ((c.apply (EventKind.OracleAttestedPostCetTimelock cet)).cet = none ∧
     (c.apply (EventKind.OracleAttestedPostCetTimelock cet)).monitor_cet_finality = true) := by
  simp [Cfd.apply, cet_txid_and_script, h]

theorem cet_without_outputs_amended_witness :
    (((Cfd.new 1).apply (EventKind.OracleAttestedPostCetTimelock
        { txid := 4, output := [], rawHex := "" })).cet = none) ∧
    (((Cfd.new 1).apply (EventKind.OracleAttestedPostCetTimelock
        { txid := 4, output := [], rawHex := "" })).monitor_cet_finality = true) :=
  (cet_without_outputs_amended (Cfd.new 1) _ rfl).2

/-- C9: a `MonitorCetFinality` message whose CET has no outputs makes the
handler return an error before any watch registration, leaving the actor's
engine state unchanged. -/
theorem monitor_cet_finality_no_outputs (s : EngineState) (msg : MonitorCetFinality)
    (h : msg.cet.output = []) :
    (handle_monitor_cet_finality s msg).1 =
      Except.error ("Failed to monitor cet using script pubkey because no TxOut in CET") ∧
    (handle_monitor_cet_finality s msg).2 = s := by
  simp [handle_monitor_cet_finality, h]

theorem monitor_cet_finality_no_outputs_witness :
    (handle_monitor_cet_finality (EngineState.new 0)
        { order_id := 1, cet := { txid := 2, output := [], rawHex := "" } }).2 =
      EngineState.new 0 :=
  (monitor_cet_finality_no_outputs (EngineState.new 0) _ rfl).2

/-- C10: the value observed by `p2p_ping_latency_seconds` on `RecordLatency`
is the latency in whole milliseconds integer-divided by 1000, so any latency
below one second (given in nanoseconds) is observed as exactly 0. -/
theorem record_latency_truncates_to_seconds (latency_ns : Nat) :
    record_latency_observed latency_ns = durationAsMillis latency_ns / 1000 ∧
    (latency_ns < 1000000000 → record_latency_observed latency_ns = 0) := by
  constructor
  · simp [record_latency_observed, checkedDiv]
  · intro h
    have hms : durationAsMillis latency_ns < 1000 := by
      apply Nat.div_lt_of_lt_mul
      omega
    simp [record_latency_observed, checkedDiv, Nat.div_eq_of_lt hms]

theorem record_latency_truncates_to_seconds_witness :
    record_latency_observed 999000000 = 0 :=
  (record_latency_truncates_to_seconds 999000000).2 (by norm_num)

/-- C2 counterexample: rebroadcasting a transaction that is already in the
chain (protocol error with code `RpcVerifyAlreadyInChain = -27`) makes
`handle_try_broadcast_transaction` return `Ok` via the early return, which
skips the `blockchain_transactions_broadcast_total` increment: the counter
is incremented 0 times, not 1. -/
theorem broadcast_already_in_chain_counterexample :
    handle_try_broadcast_transaction
      { transaction_broadcast := fun _ =>
          Except.error (ElectrumError.Protocol (RpcValue.parsed
            { code := -27, message := "transaction already in block chain" }))
        transaction_get := fun _ => Except.error () }
      { txid := 3, output := [], rawHex := "0200ab" } TransactionKind.Lock
      = (Except.ok (), 0) ∧ (0 : Nat) ≠ 1 := by
  exact ⟨rfl, by decide⟩

/-- C2 amended: for every broadcast whose result is an RPC protocol error
parsing to code `RpcVerifyAlreadyInChain`, the handler returns `Ok` and the
`blockchain_transactions_broadcast_total` counter is NOT incremented (the
early return precedes the increment, which only runs after an actual
successful broadcast). -/
theorem broadcast_already_in_chain_ok_no_increment (env : BroadcastEnv)
    (tx : Transaction) (kind : TransactionKind) (v : RpcValue) (e : RpcError)
    (hb : env.transaction_broadcast tx = Except.error (ElectrumError.Protocol v))
    (hp : parse_rpc_protocol_error v = Except.ok e)
    (hc : e.code = RpcErrorCode.toInt RpcErrorCode.RpcVerifyAlreadyInChain) :
    handle_try_broadcast_transaction env tx kind = (Except.ok (), 0) := by
  simp [handle_try_broadcast_transaction, hb, hp, hc]

theorem broadcast_already_in_chain_ok_no_increment_witness :
    handle_try_broadcast_transaction
      { transaction_broadcast := fun _ =>
          Except.error (ElectrumError.Protocol (RpcValue.parsed
            { code := -27, message := "transaction already in block chain" }))
        transaction_get := fun _ => Except.error () }
      { txid := 8, output := [], rawHex := "ffee" } TransactionKind.Cet
      = (Except.ok (), 0) :=
  broadcast_already_in_chain_ok_no_increment _ _ _ _ _ rfl rfl rfl

/-- C5: on a broadcast failing with an RPC protocol error of code
`RpcVerifyError` and message `"bad-txns-inputs-missingorspent"`, the
broadcaster queries `transaction_get` for the transaction's txid: if the
transaction is found it returns `Ok`, otherwise it propagates the original
broadcast error wrapped in the diagnostic context carrying the hex-encoded
raw transaction. -/
theorem broadcast_inputs_missing_or_spent (env : BroadcastEnv) (tx : Transaction)
    (kind : TransactionKind) (v : RpcValue) (e : RpcError)
    (hb : env.transaction_broadcast tx = Except.error (ElectrumError.Protocol v))
    (hp : parse_rpc_protocol_error v = Except.ok e)
    (hc : e.code = RpcErrorCode.toInt RpcErrorCode.RpcVerifyError)
    (hm : e.message = "bad-txns-inputs-missingorspent") :
    ((env.transaction_get tx.txid).isOk = true →
       handle_try_broadcast_transaction env tx kind = (Except.ok (), 0)) ∧
    ((env.transaction_get tx.txid).isOk = false →
       handle_try_broadcast_transaction env tx kind =
         (Except.error (BroadcastError.Failed (ElectrumError.Protocol v)
            { txid := tx.txid, kind_name := kind.name, tx_hex := tx.rawHex }), 0)) := by
  constructor
  · intro hok
    cases hg : env.transaction_get tx.txid with
    | ok t =>
        simp [handle_try_broadcast_transaction, hb, hp, hc, hm, hg, RpcErrorCode.toInt]
    | error u =>
        rw [hg] at hok
        simp [Except.isOk, Except.toBool] at hok
  · intro herr
    cases hg : env.transaction_get tx.txid with
    | ok t =>
        rw [hg] at herr
        simp [Except.isOk, Except.toBool] at herr
    | error u =>
        simp [handle_try_broadcast_transaction, hb, hp, hc, hm, hg, RpcErrorCode.toInt]

theorem broadcast_inputs_missing_or_spent_witness :
    handle_try_broadcast_transaction
      { transaction_broadcast := fun _ =>
          Except.error (ElectrumError.Protocol (RpcValue.parsed
            { code := -25, message := "bad-txns-inputs-missingorspent" }))
        transaction_get := fun _ => Except.ok { txid := 7, output := [], rawHex := "aa" } }
      { txid := 7, output := [], rawHex := "aa" } TransactionKind.Commit
      = (Except.ok (), 0) :=
  (broadcast_inputs_missing_or_spent
    { transaction_broadcast := fun _ =>
        Except.error (ElectrumError.Protocol (RpcValue.parsed
          { code := -25, message := "bad-txns-inputs-missingorspent" }))
      transaction_get := fun _ => Except.ok { txid := 7, output := [], rawHex := "aa" } }
    { txid := 7, output := [], rawHex := "aa" } TransactionKind.Commit
    (RpcValue.parsed { code := -25, message := "bad-txns-inputs-missingorspent" })
    { code := -25, message := "bad-txns-inputs-missingorspent" }
    rfl rfl rfl rfl).1 rfl

theorem replayStep_fst (oracle : TransactionKind → Transaction → Except BroadcastError Unit)
    (k : TransactionKind) (otx : Option Transaction)
    (acc : List (TransactionKind × Transaction) × List String) :
    (replayStep oracle k otx acc).1 =
      acc.1 ++ (match otx with | some tx => [(k, tx)] | none => []) := by
  cases otx with
  | none => simp [replayStep]
  | some tx => cases h : oracle k tx <;> simp [replayStep, h]

theorem replay_one_fst (oracle : TransactionKind → Transaction → Except BroadcastError Unit)
    (c : Cfd) : (replay_one oracle c).1 = startup_broadcasts c := by
  unfold replay_one startup_broadcasts
  rw [replayStep_fst, replayStep_fst, replayStep_fst]
  simp

/-- C8: the startup replay submits, for every loaded contract, the present
rebroadcast transactions in the order commit, cet, lock; the submissions do
not depend on the broadcast outcomes (an error is logged, never aborts the
contract or the remaining contracts), and a contract that fails to load is
skipped without affecting the rest. -/
theorem startup_replay_order_and_no_abort
    (oracle : TransactionKind → Transaction → Except BroadcastError Unit)
    (cfds : List (Except String Cfd)) :
    (startup_replay oracle cfds).1 =
      (cfds.filterMap Except.toOption).flatMap startup_broadcasts ∧
    ∀ c : Cfd, ((startup_broadcasts c).map Prod.fst).Sublist
      [TransactionKind.Commit, TransactionKind.Cet, TransactionKind.Lock] := by
  constructor
  · induction cfds with
    | nil => simp [startup_replay]
    | cons x rest ih =>
        cases x with
        | error s => simp [startup_replay, ih, Except.toOption]
        | ok c => simp [startup_replay, replay_one_fst, ih, Except.toOption]
  · intro c
    unfold startup_broadcasts
    cases c.broadcast_commit <;> cases c.broadcast_cet <;> cases c.broadcast_lock <;> simp

theorem drainPop_eq_reverse {α : Type} (l : List α) : drainPop l = l.reverse := by
  induction l with
  | nil => rfl
  | cons x xs ih => simp [drainPop, ih]

theorem updateGo_fires_sublist (tip : Nat) :
    ∀ (ws : List (Watch × Bool)) (hs : List (List TxStatus)),
      ((updateGo tip ws hs).2).Sublist (ws.map (fun p => p.1.fires)) := by
  intro ws
  induction ws with
  | nil => intro hs; simp [updateGo]
  | cons p rest ih =>
      intro hs
      cases hs with
      | nil => simp [updateGo]
      | cons h hs' =>
          obtain ⟨w, emitted⟩ := p
          simp only [updateGo, List.map_cons]
          split
          · exact List.Sublist.cons₂ _ (ih hs')
          · exact List.Sublist.cons _ (ih hs')

/-- C1 counterexample: a sync tick with two registered watches that both
fire. The engine's update returns the fired events in registration order,
but `Actor::sync` drains them with `Vec::pop`, dispatching them to the
executor in the opposite order. -/
theorem sync_dispatch_order_counterexample :
    (syncDispatch
        { latestTip := 0
          watches :=
            [({ txid := 1, script := 10, target := ScriptStatus.inMempool,
                fires := MEvent.LockFinality 1 }, false),
             ({ txid := 2, script := 20, target := ScriptStatus.inMempool,
                fires := MEvent.CommitFinality 2 }, false)]
          lastObserved := [] }
        100
        [[{ height := 0, tx_hash := 1 }], [{ height := 0, tx_hash := 2 }]]).2 =
      [MEvent.CommitFinality 2, MEvent.LockFinality 1] ∧
    (EngineState.update
        { latestTip := 0
          watches :=
            [({ txid := 1, script := 10, target := ScriptStatus.inMempool,
                fires := MEvent.LockFinality 1 }, false),
             ({ txid := 2, script := 20, target := ScriptStatus.inMempool,
                fires := MEvent.CommitFinality 2 }, false)]
          lastObserved := [] }
        100
        [[{ height := 0, tx_hash := 1 }], [{ height := 0, tx_hash := 2 }]]).2 =
      [MEvent.LockFinality 1, MEvent.CommitFinality 2] ∧
    [MEvent.CommitFinality 2, MEvent.LockFinality 1] ≠
      [MEvent.LockFinality 1, MEvent.CommitFinality 2] := by
  refine ⟨by decide, by decide, by decide⟩

/-- C1 amended: within a single sync tick the fired events returned by the
engine's update — which are in watch-registration order (the fired list is
a sublist of the registered watches' events in order) — are dispatched to
the command executor in the REVERSE of that order, because `Actor::sync`
drains the vector with `pop`. -/
theorem sync_dispatch_reverse_registration_order (s : EngineState) (tip : Nat)
    (histories : List (List TxStatus)) :
    (syncDispatch s tip histories).2 = ((s.update tip histories).2).reverse ∧
    ((s.update tip histories).2).Sublist (s.watches.map (fun p => p.1.fires)) := by
  constructor
  · simp [syncDispatch, drainPop_eq_reverse]
  · simpa [EngineState.update] using updateGo_fires_sublist tip s.watches histories

theorem chunksOfAux_nil {α : Type} (n : Nat) :
    ∀ fuel : Nat, chunksOfAux n fuel ([] : List α) = [] := by
  intro fuel
  cases fuel <;> rfl

theorem chunksOfAux_flatten {α : Type} (n : Nat) :
    ∀ (fuel : Nat) (l : List α), l.length ≤ fuel → (chunksOfAux n fuel l).flatten = l := by
  intro fuel
  induction fuel with
  | zero =>
      intro l hl
      have hnil : l = [] := List.eq_nil_of_length_eq_zero (Nat.le_zero.mp hl)
      subst hnil
      rfl
  | succ k ih =>
      intro l hl
      cases l with
      | nil => rfl
      | cons x xs =>
          have hxs : xs.length ≤ k := by
            simpa using hl
          have hdrop : (xs.drop (n - 1)).length ≤ k := by
            simp only [List.length_drop]
            omega
          simp only [chunksOfAux, List.flatten_cons, ih _ hdrop]
          simp [List.take_append_drop]

theorem chunksOf_flatten {α : Type} (n : Nat) (l : List α) :
    (chunksOf n l).flatten = l :=
  chunksOfAux_flatten n l.length l le_rfl

theorem chunksOf_of_length_le {α : Type} (n : Nat) (x : α) (xs : List α)
    (h : (x :: xs).length ≤ n) : chunksOf n (x :: xs) = [x :: xs] := by
  have htake : xs.take (n - 1) = xs := by
    apply List.take_of_length_le
    simp at h
    omega
  have hdrop : xs.drop (n - 1) = [] := by
    apply List.drop_eq_nil_of_le
    simp at h
    omega
  simp [chunksOf, chunksOfAux, htake, hdrop, chunksOfAux_nil]

theorem mergeStreams_nil {α : Type} :
    ∀ sched : List Nat, mergeStreams ([] : List (List α)) sched = [] := by
  intro sched
  induction sched with
  | nil => rfl
  | cons i rest ih => simp [mergeStreams, ih]

theorem mergeStreams_singleton {α : Type} :
    ∀ (sched : List Nat) (c : List α), mergeStreams [c] sched = c := by
  intro sched
  induction sched with
  | nil => intro c; simp [mergeStreams]
  | cons i rest ih =>
      intro c
      cases i with
      | zero =>
          cases c with
          | nil => simp [mergeStreams, ih]
          | cons x s => simp [mergeStreams, ih]
      | succ j => simp [mergeStreams, ih]

theorem flatten_perm_of_get {α : Type} :
    ∀ (streams : List (List α)) (i : Nat) (x : α) (s' : List α),
      streams[i]? = some (x :: s') →
      List.Perm streams.flatten (x :: (streams.set i s').flatten) := by
  intro streams
  induction streams with
  | nil => intro i x s' h; simp at h
  | cons t ts ih =>
      intro i x s' h
      cases i with
      | zero =>
          have ht : t = x :: s' := by simpa using h
          subst ht
          simp
      | succ j =>
          have hj : ts[j]? = some (x :: s') := by simpa using h
          have hp := ih j x s' hj
          show List.Perm (t ++ ts.flatten) (x :: (t ++ (ts.set j s').flatten))
          exact (hp.append_left t).trans List.perm_middle

theorem mergeStreams_perm_flatten {α : Type} :
    ∀ (sched : List Nat) (streams : List (List α)),
      List.Perm (mergeStreams streams sched) streams.flatten := by
  intro sched
  induction sched with
  | nil => intro streams; simp [mergeStreams]
  | cons i rest ih =>
      intro streams
      cases hg : streams[i]? with
      | none => simpa [mergeStreams, hg] using ih streams
      | some s =>
          cases s with
          | nil => simpa [mergeStreams, hg] using ih streams
          | cons x s' =>
              have h1 := ih (streams.set i s')
              have h2 := flatten_perm_of_get streams i x s' hg
              have hgoal : mergeStreams streams (i :: rest) =
                  x :: mergeStreams (streams.set i s') rest := by
                simp [mergeStreams, hg]
              rw [hgoal]
              exact (h1.cons x).trans h2.symm

/-- C4 counterexample: 26 scripts split into two chunks running on parallel
workers; a schedule in which the second chunk's worker wins the race makes
the collector receive the 26th script's history first, so the returned list
is NOT in input-script order. -/
theorem batch_history_order_counterexample :
    batch_script_get_history (fun s => [{ height := 0, tx_hash := s }])
        (List.range 26) [1] ≠
      (List.range 26).map (fun s => [{ height := 0, tx_hash := s }]) := by
  decide

/-- C4 amended: when every `script_get_history` call succeeds within the
per-item timeout, `batch_script_get_history` returns exactly one history per
script — the result is a permutation of the per-script histories and has
length N — but the order is only guaranteed to be the input order when the
scripts fit in a single batch (N ≤ BATCH_SIZE); across batches the order
depends on the interleaving of the parallel workers. -/
theorem batch_history_complete_and_ordered_within_batch
    (hist : Script → List TxStatus) (scripts : List Script) (sched : List Nat) :
    ((batch_script_get_history hist scripts sched).length = scripts.length ∧
     List.Perm (batch_script_get_history hist scripts sched) (scripts.map hist)) ∧
    (scripts.length ≤ BATCH_SIZE →
      batch_script_get_history hist scripts sched = scripts.map hist) := by
  have hperm : List.Perm (batch_script_get_history hist scripts sched)
      (scripts.map hist) := by
    unfold batch_script_get_history
    have h1 := mergeStreams_perm_flatten sched
      ((chunksOf BATCH_SIZE scripts).map (fun chunk => chunk.map hist))
    rw [← List.map_flatten, chunksOf_flatten] at h1
    exact h1
  refine ⟨⟨by simpa using hperm.length_eq, hperm⟩, ?_⟩
  intro hle
  unfold batch_script_get_history
  cases scripts with
  | nil => simp [chunksOf, chunksOfAux_nil, mergeStreams_nil]
  | cons x xs =>
      rw [chunksOf_of_length_le BATCH_SIZE x xs hle]
      simp [mergeStreams_singleton]

theorem batch_history_complete_and_ordered_within_batch_witness :
    batch_script_get_history (fun s => [{ height := 0, tx_hash := s }]) [3, 4, 5] [0] =
      [3, 4, 5].map (fun s => [{ height := 0, tx_hash := s }]) :=
  (batch_history_complete_and_ordered_within_batch
    (fun s => [{ height := 0, tx_hash := s }]) [3, 4, 5] [0]).2 (by decide)
